import Mathlib

/-!
Shallow embedding of the radiation-dose estimation core of the
Cosmic Radiation Research Dashboard (`src/app.py`, Mission Dose
Comparator tab).  Python floats are modelled as real numbers; the
constant lookup dictionaries are modelled over the rationals (their
entries are decimal literals); the dose pipeline itself lives in `ℝ`
because the shielding model applies the real exponential.
-/

/-- Shielding materials: the keys of the `attenuation_factors`
dictionary (app.py lines 100-106).  The selectbox offers only the last
four; the dictionary also holds the key `None`. -/
inductive Material
  | None
  | Aluminum
  | Polyethylene
  | Water
  | Regolith
deriving DecidableEq

/-- Solar activity phases: the keys of `solar_modifiers`
(app.py lines 110-119). -/
inductive SolarPhase
  | SolarMax
  | Average
  | SolarMin
deriving DecidableEq

/-- Mission profiles offered by the mission selectbox
(app.py lines 123-127). -/
inductive Mission
  | ISS
  | LunarOrbit
  | LunarSurface
  | MarsTransit
  | DeepSpace
deriving DecidableEq

/-- Organs of the `organs` sensitivity dictionary, in the insertion
order of app.py lines 152-158. -/
inductive Organ
  | Skin
  | Eyes
  | BoneMarrow
  | Brain
  | Heart
deriving DecidableEq

/-- Risk tiers of the risk-alert branches (app.py lines 194-199). -/
inductive RiskLevel
  | Safe
  | Warning
  | Danger
deriving DecidableEq

/-- The `attenuation_factors` dictionary (app.py lines 100-106). -/
def attenuation_factors : Material → ℚ
  | .None => 0
  | .Aluminum => 0.07
  | .Polyethylene => 0.05
  | .Water => 0.06
  | .Regolith => 0.04

/-- The shielding attenuation formula
`shielding_factor = np.exp(-thickness * attenuation_factors[material])`
(app.py line 107). -/
noncomputable def shielding_factor (material : Material) (thickness : ℝ) : ℝ :=
  Real.exp (-(thickness * (attenuation_factors material : ℝ)))

/-- The `solar_modifiers` dictionary (app.py lines 115-119). -/
def solar_modifiers : SolarPhase → ℚ
  | .SolarMax => 0.7
  | .Average => 1.0
  | .SolarMin => 1.3

/-- The mapping returned by `fetch_space_radiation_data`: daily dose
rates for the four environments (app.py lines 65-79). -/
structure RadiationBaseline where
  iss : ℚ
  lunar : ℚ
  mars_transit : ℚ
  deep_space : ℚ
deriving DecidableEq

/-- The fallback mapping returned on any fetch failure
(app.py lines 74-79). -/
def fallback : RadiationBaseline :=
  { iss := 0.3, lunar := 0.5, mars_transit := 1.8, deep_space := 2.5 }

/-- Payload of a successful NASA ISS response: the optional
`rad.daily_average` field read by
`iss_data.get("rad", {}).get("daily_average", 0.3)` (app.py line 59).
`none` covers both a missing `rad` object and a missing
`daily_average` key. -/
structure IssData where
  rad_daily_average : Option ℚ
deriving DecidableEq

/-- Payload of a successful ESA response: the three optional fields
read with `.get` defaults (app.py lines 67-69). -/
structure EsaData where
  lunar_surface : Option ℚ
  mars_transit : Option ℚ
  galactic : Option ℚ
deriving DecidableEq

/-- Outcome of the two network requests inside the `try` block of
`fetch_space_radiation_data` (app.py lines 55-72): either some raised
exception (network error or malformed JSON in either request), or both
responses parsed, each field individually present or absent. -/
inductive FetchOutcome
  | failure
  | success (iss : IssData) (esa : EsaData)

/-- The body of `fetch_space_radiation_data` (app.py lines 52-79):
on any exception the fixed fallback mapping is returned; on success
each field is read with `.get` and its individual default. -/
def fetch_space_radiation_data : FetchOutcome → RadiationBaseline
  | .failure => fallback
  | .success i e =>
      { iss := i.rad_daily_average.getD 0.3
        lunar := e.lunar_surface.getD 0.5
        mars_transit := e.mars_transit.getD 1.8
        deep_space := e.galactic.getD 2.5 }

/-- The `base_doses` dictionary (app.py lines 136-142), resolving the
mission profile to a baseline daily dose rate; Lunar Surface scales the
lunar baseline by 1.2. -/
noncomputable def base_doses (data : RadiationBaseline) : Mission → ℝ
  | .ISS => (data.iss : ℝ)
  | .LunarOrbit => (data.lunar : ℝ)
  | .LunarSurface => (data.lunar : ℝ) * 1.2
  | .MarsTransit => (data.mars_transit : ℝ)
  | .DeepSpace => (data.deep_space : ℝ)

/-- The adjusted dose rate
`base_doses[mission] * shielding_factor * solar_modifiers[solar_phase]`
(app.py lines 145-147). -/
noncomputable def adjusted_dose_rate (data : RadiationBaseline) (mission : Mission)
    (material : Material) (thickness : ℝ) (phase : SolarPhase) : ℝ :=
  base_doses data mission * shielding_factor material thickness *
    (solar_modifiers phase : ℝ)

/-- The total mission dose `adjusted_dose_rate * duration`
(app.py line 148); the duration slider yields a whole number of days. -/
noncomputable def total_dose (data : RadiationBaseline) (mission : Mission)
    (material : Material) (thickness : ℝ) (phase : SolarPhase)
    (duration : ℕ) : ℝ :=
  adjusted_dose_rate data mission material thickness phase * (duration : ℝ)

/-- The risk-alert branches (app.py lines 194-199): danger above
1000 mSv, warning above 500 mSv, safe otherwise. -/
noncomputable def classify (dose : ℝ) : RiskLevel :=
  if dose > 1000 then .Danger
  else if dose > 500 then .Warning
  else .Safe

/-- The `organs` sensitivity dictionary (app.py lines 152-158). -/
def organs : Organ → ℚ
  | .Skin => 1.1
  | .Eyes => 1.5
  | .BoneMarrow => 1.0
  | .Brain => 0.8
  | .Heart => 0.9

/-- The `organ_doses` comprehension `total_dose * factor`
(app.py lines 160-163). -/
noncomputable def organ_doses (dose : ℝ) (organ : Organ) : ℝ :=
  dose * (organs organ : ℝ)

/-- The organ named on the Highest Organ Dose report line,
`max(organ_doses, key=organ_doses.get)` (app.py line 253): Python
`max` scans the keys in insertion order and keeps the first key whose
value is strictly larger than the current best. -/
noncomputable def highest_dose_organ (dose : ℝ) : Organ :=
  [Organ.Eyes, Organ.BoneMarrow, Organ.Brain, Organ.Heart].foldl
    (fun best o => if organ_doses dose best < organ_doses dose o then o else best)
    Organ.Skin

/-- The Monte Carlo draw
`np.random.normal(loc=total_dose, scale=total_dose*0.25, size=1000)`
(app.py lines 203-207).  A normal draw with mean `loc` and standard
deviation `scale` is `loc + scale * z` for a standard-normal
innovation `z`; the 1000 innovations are passed in explicitly, so the
embedding is deterministic in them.  NumPy accepts `scale = 0` and
then every sample equals `loc` exactly. -/
noncomputable def simulated_doses (dose : ℝ) (z : Fin 1000 → ℝ) : List ℝ :=
  (List.finRange 1000).map fun i => dose + dose * 0.25 * z i

/-- Every attenuation coefficient in the dictionary is non-negative. -/
lemma attenuation_factors_nonneg (m : Material) : 0 ≤ attenuation_factors m := by
  cases m <;> norm_num [attenuation_factors]

/-- Every solar modifier in the dictionary is positive. -/
lemma solar_modifiers_pos (p : SolarPhase) : 0 < solar_modifiers p := by
  cases p <;> norm_num [solar_modifiers]

/-- Two-sided numeric bounds on `exp 0.7`, from the degree-7 Taylor
remainder bound. -/
lemma exp_pt7_bounds : (2.01371 : ℝ) < Real.exp 0.7 ∧ Real.exp 0.7 < 2.01376 := by
  have h7 : (0 : ℕ) < 7 := by norm_num
  have hx : |(0.7 : ℝ)| ≤ 1 := by rw [abs_of_nonneg] <;> norm_num
  have h := Real.exp_bound hx h7
  rw [abs_sub_le_iff] at h
  obtain ⟨h1, h2⟩ := h
  have hs : ∑ m ∈ Finset.range 7, (0.7 : ℝ) ^ m / m.factorial
      = 1449889069 / 720000000 := by
    simp [Finset.sum_range_succ, Nat.factorial]
    norm_num
  rw [hs] at h1 h2
  rw [abs_of_nonneg (by norm_num : (0:ℝ) ≤ 0.7)] at h1 h2
  norm_num [Nat.factorial] at h1 h2
  constructor <;> linarith

/-- C2: the risk classifier sends doses strictly above 1000 to Danger,
doses strictly above 500 and at most 1000 to Warning, and doses at most
500 to Safe; the boundary values 500 and 1000 fall in the lower tier,
as the four concrete evaluations show. -/
theorem classify_thresholds :
    (∀ d : ℝ, 1000 < d → classify d = RiskLevel.Danger) ∧
    (∀ d : ℝ, 500 < d → d ≤ 1000 → classify d = RiskLevel.Warning) ∧
    (∀ d : ℝ, d ≤ 500 → classify d = RiskLevel.Safe) ∧
    classify 500 = RiskLevel.Safe ∧
    classify 500.0001 = RiskLevel.Warning ∧
    classify 1000 = RiskLevel.Warning ∧
    classify 1000.0001 = RiskLevel.Danger := by
  refine ⟨fun d hd => ?_, fun d hd hd2 => ?_, fun d hd => ?_, ?_, ?_, ?_, ?_⟩
  · rw [classify, if_pos (by linarith)]
  · rw [classify, if_neg (by linarith), if_pos (by linarith)]
  · rw [classify, if_neg (by linarith), if_neg (by linarith)]
  · rw [classify, if_neg (by norm_num), if_neg (by norm_num)]
  · rw [classify, if_neg (by norm_num), if_pos (by norm_num)]
  · rw [classify, if_neg (by norm_num), if_pos (by norm_num)]
  · rw [classify, if_pos (by norm_num)]

/-- Witness for `classify_thresholds` applied at the concrete doses
1500, 700 and 100. -/
theorem classify_thresholds_witness :
    classify 1500 = RiskLevel.Danger ∧ classify 700 = RiskLevel.Warning ∧
    classify 100 = RiskLevel.Safe :=
  ⟨classify_thresholds.1 1500 (by norm_num),
   classify_thresholds.2.1 700 (by norm_num) (by norm_num),
   classify_thresholds.2.2.1 100 (by norm_num)⟩

/-- C3: for a material with positive attenuation coefficient the
shielding factor strictly decreases in the thickness, and for every
material and thickness at least 0 the factor lies in the half-open
interval from 0 (excluded) to 1 (included). -/
theorem shielding_factor_monotone_and_range :
    (∀ (m : Material) (t1 t2 : ℝ), 0 < attenuation_factors m → 0 ≤ t1 →
      t1 < t2 → shielding_factor m t2 < shielding_factor m t1) ∧
    (∀ (m : Material) (t : ℝ), 0 ≤ t →
      0 < shielding_factor m t ∧ shielding_factor m t ≤ 1) := by
  constructor
  · intro m t1 t2 hc ht1 hlt
    have hc' : (0 : ℝ) < (attenuation_factors m : ℝ) := by exact_mod_cast hc
    apply Real.exp_lt_exp.mpr
    have := mul_lt_mul_of_pos_right hlt hc'
    linarith
  · intro m t ht
    refine ⟨Real.exp_pos _, Real.exp_le_one_iff.mpr ?_⟩
    have hc : (0 : ℝ) ≤ (attenuation_factors m : ℝ) := by
      exact_mod_cast attenuation_factors_nonneg m
    have := mul_nonneg ht hc
    linarith

/-- Witness for `shielding_factor_monotone_and_range` at Aluminum with
thicknesses 5 and 10. -/
theorem shielding_factor_monotone_and_range_witness :
    shielding_factor Material.Aluminum 10 < shielding_factor Material.Aluminum 5 ∧
    0 < shielding_factor Material.Aluminum 10 ∧
    shielding_factor Material.Aluminum 10 ≤ 1 :=
  ⟨shielding_factor_monotone_and_range.1 Material.Aluminum 5 10
      (by norm_num [attenuation_factors]) (by norm_num) (by norm_num),
   shielding_factor_monotone_and_range.2 Material.Aluminum 10 (by norm_num)⟩

/-- C8: for every non-negative total dose the organ breakdown assigns
each organ its fixed sensitivity factor times the total dose, the Eyes
entry is exactly 1.5 times the total dose, and every entry is
non-negative. -/
theorem organ_doses_formula (d : ℝ) (hd : 0 ≤ d) :
    organ_doses d Organ.Skin = 1.1 * d ∧
    organ_doses d Organ.Eyes = 1.5 * d ∧
    organ_doses d Organ.BoneMarrow = 1.0 * d ∧
    organ_doses d Organ.Brain = 0.8 * d ∧
    organ_doses d Organ.Heart = 0.9 * d ∧
    ∀ o : Organ, 0 ≤ organ_doses d o := by
  refine ⟨?_, ?_, ?_, ?_, ?_, ?_⟩
  · rw [organ_doses]; norm_num [organs]; ring
  · rw [organ_doses]; norm_num [organs]; ring
  · rw [organ_doses]; norm_num [organs]
  · rw [organ_doses]; norm_num [organs]; ring
  · rw [organ_doses]; norm_num [organs]; ring
  · intro o
    rw [organ_doses]
    have h : (0 : ℝ) ≤ (organs o : ℝ) := by
      cases o <;> norm_num [organs]
    exact mul_nonneg hd h

/-- Witness for `organ_doses_formula` at total dose 10. -/
theorem organ_doses_formula_witness :
    organ_doses 10 Organ.Eyes = 1.5 * 10 ∧ 0 ≤ organ_doses 10 Organ.Skin :=
  ⟨(organ_doses_formula 10 (by norm_num)).2.1,
   (organ_doses_formula 10 (by norm_num)).2.2.2.2.2 Organ.Skin⟩

/-- C10: for every positive total dose the Eyes dose strictly exceeds
every other organ dose, the report's highest-organ scan returns Eyes
with dose 1.5 times the total dose, and at total dose 0 every organ
dose is 0. -/
theorem highest_dose_organ_eyes (d : ℝ) (hd : 0 < d) :
    highest_dose_organ d = Organ.Eyes ∧
    organ_doses d Organ.Eyes = 1.5 * d ∧
    (∀ o : Organ, o ≠ Organ.Eyes → organ_doses d o < organ_doses d Organ.Eyes) ∧
    (∀ o : Organ, organ_doses 0 o = 0) := by
  have hlt : ∀ o : Organ, o ≠ Organ.Eyes →
      organ_doses d o < organ_doses d Organ.Eyes := by
    intro o ho
    rw [organ_doses, organ_doses]
    have h : (organs o : ℝ) < (organs Organ.Eyes : ℝ) := by
      cases o <;> simp at ho ⊢ <;> norm_num [organs]
    exact mul_lt_mul_of_pos_left h hd
  refine ⟨?_, ?_, hlt, ?_⟩
  · rw [highest_dose_organ]
    simp only [List.foldl]
    rw [if_pos (hlt Organ.Skin (by simp)),
        if_neg (not_lt.mpr (hlt Organ.BoneMarrow (by simp)).le),
        if_neg (not_lt.mpr (hlt Organ.Brain (by simp)).le),
        if_neg (not_lt.mpr (hlt Organ.Heart (by simp)).le)]
  · rw [organ_doses]; norm_num [organs]; ring
  · intro o; rw [organ_doses]; ring

/-- Witness for `highest_dose_organ_eyes` at total dose 2. -/
theorem highest_dose_organ_eyes_witness :
    highest_dose_organ 2 = Organ.Eyes ∧ organ_doses 2 Organ.Eyes = 1.5 * 2 :=
  ⟨(highest_dose_organ_eyes 2 (by norm_num)).1,
   (highest_dose_organ_eyes 2 (by norm_num)).2.1⟩

/-- C9: the simulator always produces exactly 1000 samples, and at
total dose 0 (hence scale 0) every sample is exactly 0, whatever the
standard-normal innovations are: a zero-variance point mass with no
arithmetic failure. -/
theorem simulated_doses_count_and_zero (d : ℝ) (z : Fin 1000 → ℝ) :
    (simulated_doses d z).length = 1000 ∧
    (d = 0 → ∀ x ∈ simulated_doses d z, x = 0) := by
  constructor
  · rw [simulated_doses]
    rw [List.length_map, List.length_finRange]
  · intro h0 x hx
    rw [simulated_doses] at hx
    obtain ⟨i, _, hi⟩ := List.mem_map.mp hx
    rw [← hi, h0]
    ring

/-- Witness for `simulated_doses_count_and_zero` at total dose 0 with
all innovations equal to 3. -/
theorem simulated_doses_count_and_zero_witness :
    (simulated_doses 0 (fun _ => 3)).length = 1000 ∧
    ∀ x ∈ simulated_doses 0 (fun _ => 3), x = 0 :=
  ⟨(simulated_doses_count_and_zero 0 (fun _ => 3)).1,
   (simulated_doses_count_and_zero 0 (fun _ => 3)).2 rfl⟩

/-- C4: for every baseline with non-negative rates and every valid
mission, shielding configuration, solar phase and duration, the total
dose is non-negative, and doubling the duration exactly doubles the
total dose. -/
theorem total_dose_nonneg_and_linear (data : RadiationBaseline)
    (m : Mission) (mat : Material) (t : ℝ) (p : SolarPhase) (d : ℕ)
    (hiss : 0 ≤ data.iss) (hlun : 0 ≤ data.lunar)
    (hmar : 0 ≤ data.mars_transit) (hdeep : 0 ≤ data.deep_space)
    (ht0 : 0 ≤ t) (ht50 : t ≤ 50) (hd1 : 1 ≤ d) (hd2 : d ≤ 1000) :
    0 ≤ total_dose data m mat t p d ∧
    total_dose data m mat t p (2 * d) = 2 * total_dose data m mat t p d := by
  constructor
  · rw [total_dose, adjusted_dose_rate]
    have hbase : 0 ≤ base_doses data m := by
      cases m <;> rw [base_doses]
      · exact_mod_cast hiss
      · exact_mod_cast hlun
      · have : (0 : ℝ) ≤ (data.lunar : ℝ) := by exact_mod_cast hlun
        linarith
      · exact_mod_cast hmar
      · exact_mod_cast hdeep
    have hsh : 0 ≤ shielding_factor mat t := (Real.exp_pos _).le
    have hsol : (0 : ℝ) ≤ (solar_modifiers p : ℝ) := by
      exact_mod_cast (solar_modifiers_pos p).le
    have hdur : (0 : ℝ) ≤ (d : ℝ) := Nat.cast_nonneg d
    exact mul_nonneg (mul_nonneg (mul_nonneg hbase hsh) hsol) hdur
  · rw [total_dose, total_dose]
    push_cast
    ring

/-- Witness for `total_dose_nonneg_and_linear` on the fallback
baseline, the ISS profile, Aluminum at 10 g per square centimetre,
Average phase and 180 days. -/
theorem total_dose_nonneg_and_linear_witness :
    0 ≤ total_dose fallback Mission.ISS Material.Aluminum 10 SolarPhase.Average 180 ∧
    total_dose fallback Mission.ISS Material.Aluminum 10 SolarPhase.Average (2 * 180)
      = 2 * total_dose fallback Mission.ISS Material.Aluminum 10 SolarPhase.Average 180 :=
  total_dose_nonneg_and_linear fallback Mission.ISS Material.Aluminum 10
    SolarPhase.Average 180 (by norm_num [fallback]) (by norm_num [fallback])
    (by norm_num [fallback]) (by norm_num [fallback]) (by norm_num) (by norm_num)
    (by norm_num) (by norm_num)

/-- C5: on any fetch failure the data source returns exactly the
fallback mapping, and on a successful fetch each individually missing
field is replaced by its own fallback value while each present field is
passed through, so no failure ever reaches the caller. -/
theorem fetch_space_radiation_data_fallback :
    fetch_space_radiation_data FetchOutcome.failure = fallback ∧
    fallback = { iss := 0.3, lunar := 0.5, mars_transit := 1.8, deep_space := 2.5 } ∧
    ∀ (i : IssData) (e : EsaData),
      (i.rad_daily_average = none →
        (fetch_space_radiation_data (.success i e)).iss = fallback.iss) ∧
      (∀ v, i.rad_daily_average = some v →
        (fetch_space_radiation_data (.success i e)).iss = v) ∧
      (e.lunar_surface = none →
        (fetch_space_radiation_data (.success i e)).lunar = fallback.lunar) ∧
      (∀ v, e.lunar_surface = some v →
        (fetch_space_radiation_data (.success i e)).lunar = v) ∧
      (e.mars_transit = none →
        (fetch_space_radiation_data (.success i e)).mars_transit
          = fallback.mars_transit) ∧
      (∀ v, e.mars_transit = some v →
        (fetch_space_radiation_data (.success i e)).mars_transit = v) ∧
      (e.galactic = none →
        (fetch_space_radiation_data (.success i e)).deep_space
          = fallback.deep_space) ∧
      (∀ v, e.galactic = some v →
        (fetch_space_radiation_data (.success i e)).deep_space = v) := by
  refine ⟨rfl, rfl, fun i e => ?_⟩
  refine ⟨fun h => ?_, fun v h => ?_, fun h => ?_, fun v h => ?_,
      fun h => ?_, fun v h => ?_, fun h => ?_, fun v h => ?_⟩ <;>
    simp [fetch_space_radiation_data, fallback, h]

/-- Witness for `fetch_space_radiation_data_fallback`: a response with
the ISS field missing and the three ESA fields present. -/
theorem fetch_space_radiation_data_fallback_witness :
    (fetch_space_radiation_data
      (.success ⟨none⟩ ⟨some 0.6, some 2.0, some 2.9⟩)).iss = fallback.iss ∧
    (fetch_space_radiation_data
      (.success ⟨none⟩ ⟨some 0.6, some 2.0, some 2.9⟩)).lunar = 0.6 :=
  ⟨((fetch_space_radiation_data_fallback.2.2 ⟨none⟩
      ⟨some 0.6, some 2.0, some 2.9⟩).1 rfl),
   ((fetch_space_radiation_data_fallback.2.2 ⟨none⟩
      ⟨some 0.6, some 2.0, some 2.9⟩).2.2.2.1 0.6 rfl)⟩

/-- Helper: the shielding factor for Aluminum at thickness 10 is
exactly `exp (-0.7)`. -/
lemma shielding_aluminum_10 :
    shielding_factor Material.Aluminum 10 = Real.exp (-(0.7 : ℝ)) := by
  rw [shielding_factor]
  norm_num [attenuation_factors]

/-- Helper: two-sided bounds on `exp (-0.7)` obtained from the bounds
on `exp 0.7`. -/
lemma exp_neg_pt7_bounds :
    (0.4965 : ℝ) < Real.exp (-(0.7 : ℝ)) ∧ Real.exp (-(0.7 : ℝ)) < 0.4966 := by
  obtain ⟨hlb, hub⟩ := exp_pt7_bounds
  have hprod : Real.exp 0.7 * Real.exp (-(0.7 : ℝ)) = 1 := by
    rw [← Real.exp_add]; norm_num
  have hpos : (0 : ℝ) < Real.exp (-(0.7 : ℝ)) := Real.exp_pos _
  constructor
  · nlinarith [mul_pos (sub_pos.mpr hub) hpos]
  · nlinarith [mul_pos (sub_pos.mpr hlb) hpos]

/-- C1: for the ISS mission on the fallback baseline (iss rate 0.3),
Aluminum shielding of 10, Average solar phase and 180 days, the
shielding factor is `exp (-0.7)` and is within 0.0001 of 0.4966, the
adjusted dose rate is within 0.0001 of 0.1490, the total dose is
within 0.01 of 26.82, and the risk classification is Safe. -/
theorem end_to_end_iss_defaults :
    shielding_factor Material.Aluminum 10 = Real.exp (-(0.7 : ℝ)) ∧
    |shielding_factor Material.Aluminum 10 - 0.4966| < 0.0001 ∧
    |adjusted_dose_rate fallback Mission.ISS Material.Aluminum 10
        SolarPhase.Average - 0.1490| < 0.0001 ∧
    |total_dose fallback Mission.ISS Material.Aluminum 10
        SolarPhase.Average 180 - 26.82| < 0.01 ∧
    classify (total_dose fallback Mission.ISS Material.Aluminum 10
        SolarPhase.Average 180) = RiskLevel.Safe := by
  obtain ⟨helb, heub⟩ := exp_neg_pt7_bounds
  have hadj : adjusted_dose_rate fallback Mission.ISS Material.Aluminum 10
      SolarPhase.Average = 0.3 * Real.exp (-(0.7 : ℝ)) := by
    rw [adjusted_dose_rate, base_doses, shielding_aluminum_10]
    norm_num [fallback, solar_modifiers]
  have htot : total_dose fallback Mission.ISS Material.Aluminum 10
      SolarPhase.Average 180 = 54 * Real.exp (-(0.7 : ℝ)) := by
    rw [total_dose, hadj]
    push_cast
    ring
  refine ⟨shielding_aluminum_10, ?_, ?_, ?_, ?_⟩
  · rw [shielding_aluminum_10, abs_sub_lt_iff]
    constructor <;> linarith
  · rw [hadj, abs_sub_lt_iff]
    constructor <;> linarith
  · rw [htot, abs_sub_lt_iff]
    constructor <;> linarith
  · rw [htot, classify, if_neg (by linarith), if_neg (by linarith)]

/-- C6 counterexample: at the invalid negative thickness -10 the
shielding model does not fail: it silently returns the ordinary
exponential value `exp 0.7`, which even exceeds 1, so negative
thickness is neither rejected nor clamped. -/
theorem shielding_negative_thickness_cex :
    shielding_factor Material.Aluminum (-10) = Real.exp (0.7 : ℝ) ∧
    1 < shielding_factor Material.Aluminum (-10) := by
  have h : shielding_factor Material.Aluminum (-10) = Real.exp (0.7 : ℝ) := by
    rw [shielding_factor]
    norm_num [attenuation_factors]
  refine ⟨h, ?_⟩
  rw [h]
  exact Real.one_lt_exp_iff.mpr (by norm_num)

/-- C6 amended: the shielding model performs no thickness validation;
for every material with positive coefficient and every negative
thickness it silently returns `exp (-thickness * coefficient)`, a value
strictly greater than 1 and hence outside the valid range (0, 1].
Negative thickness is prevented only by the UI slider, whose minimum
is 0. -/
theorem shielding_negative_thickness_silent (m : Material) (t : ℝ)
    (ht : t < 0) (hc : 0 < attenuation_factors m) :
    1 < shielding_factor m t := by
  rw [shielding_factor]
  apply Real.one_lt_exp_iff.mpr
  have hc' : (0 : ℝ) < (attenuation_factors m : ℝ) := by exact_mod_cast hc
  nlinarith

/-- Witness for `shielding_negative_thickness_silent` at Aluminum with
thickness -5. -/
theorem shielding_negative_thickness_silent_witness :
    1 < shielding_factor Material.Aluminum (-5) :=
  shielding_negative_thickness_silent Material.Aluminum (-5) (by norm_num)
    (by norm_num [attenuation_factors])

/-- C7 counterexample: at the out-of-range duration 2000 days the dose
calculation does not fail: with the fallback ISS baseline, Aluminum at
thickness 0 and Average phase it silently returns the total dose 600,
so out-of-range durations are not rejected. -/
theorem total_dose_out_of_range_duration_cex :
    total_dose fallback Mission.ISS Material.Aluminum 0 SolarPhase.Average 2000
      = 600 := by
  rw [total_dose, adjusted_dose_rate, base_doses, shielding_factor]
  norm_num [attenuation_factors, solar_modifiers, fallback]

/-- C7 amended: the dose calculation performs no duration validation;
for every duration, also outside the slider range 1 to 1000, it
returns adjusted dose rate times duration — concretely, 0.3 times the
duration for the fallback ISS baseline with Aluminum at thickness 0
and Average phase.  The range restriction on the duration exists only
in the UI slider. -/
theorem total_dose_no_duration_validation (d : ℕ) :
    total_dose fallback Mission.ISS Material.Aluminum 0 SolarPhase.Average d
      = 0.3 * (d : ℝ) := by
  rw [total_dose, adjusted_dose_rate, base_doses, shielding_factor]
  norm_num [attenuation_factors, solar_modifiers, fallback]
